import Mathlib

/-!
Verification of the Resource Client (`src/services/api.js`): an axios-based
HTTP wrapper exposing `fetchPosts`, `fetchPostById`, `fetchUser` and
`createPost` against a fixed base endpoint.

The JavaScript code is shallowly embedded: the axios transport becomes a
function from requests to outcomes, `console` output becomes an explicit
log list, and `throw`/`return` become an `Except` result.  Each operation
is a pure function returning the list of requests it issued (in order),
the list of log entries it wrote (in order), and its result.
-/

namespace Api

/-- JavaScript values as they appear at the wrapper's boundary: ids, limits
and payloads are arbitrary JS values passed through without validation. -/
inductive JsVal where
  | num (n : Int)
  | str (s : String)
  | boolean (b : Bool)
  | null
  | undef
  | obj (fields : List (String × JsVal))
  | arr (elems : List JsVal)

/-- JS string conversion, as used by template-literal interpolation
such as the backtick string /posts/$\x7bid\x7d in the source. -/
def jsToString : JsVal → String
  | .num n => toString n
  | .str s => s
  | .boolean b => if b then "true" else "false"
  | .null => "null"
  | .undef => "undefined"
  | .obj _ => "[object Object]"
  | .arr elems => String.intercalate "," (elems.attach.map (fun x => jsToString x.1))
decreasing_by
  have := List.sizeOf_lt_of_mem x.2
  simp only [JsVal.arr.sizeOf_spec]
  omega

inductive HttpMethod where
  | get
  | post
  deriving DecidableEq, Repr

/-- The axios instance configuration: `axios.create({ baseURL, headers, timeout })`. -/
structure ApiClientConfig where
  baseURL : String
  headers : List (String × String)
  timeout : Nat
  deriving DecidableEq, Repr

/-- `const apiClient = axios.create({...})` from `src/services/api.js` lines 4-11. -/
def apiClient : ApiClientConfig :=
  { baseURL := "https://jsonplaceholder.typicode.com"
    headers := [("Content-Type", "application/json"), ("Accept", "application/json")]
    timeout := 10000 }

/-- An outbound HTTP request as assembled by the axios instance: the
instance configuration (baseURL, headers, timeout) plus the per-call
method, url path, query params and optional body. -/
structure HttpRequest where
  method : HttpMethod
  baseURL : String
  url : String
  headers : List (String × String)
  timeout : Nat
  params : List (String × JsVal)
  body : Option JsVal

/-- A successful axios response (only the fields the wrapper reads). -/
structure AxiosResponse where
  status : Nat
  data : JsVal

/-- An axios failure value: `error.response` is present when the server
answered with a non-2xx status, `error.request` when the request was sent
but no response arrived, and `error.message` always. -/
structure AxiosError where
  response : Option AxiosResponse
  request : Option String
  message : String

/-- The outcome the transport delivers for one request. -/
inductive TransportOutcome where
  | ok (resp : AxiosResponse)
  | err (e : AxiosError)

/-- The underlying transport: what axios resolves each request to. -/
def Transport := HttpRequest → TransportOutcome

/-- One console entry: `console.error(...)` with its stringified argument
list, or `console.log(msg)`. -/
inductive LogEntry where
  | error (parts : List String)
  | log (msg : String)
  deriving DecidableEq, Repr

/-- The observable behaviour of one wrapper call: requests issued in order,
console entries written in order, and the value returned or the error
re-thrown. -/
structure OpResult where
  requests : List HttpRequest
  logs : List LogEntry
  result : Except AxiosError JsVal

/-- `apiClient.get(url, { params })`: a GET request carrying the instance
configuration. -/
def clientGet (cfg : ApiClientConfig) (url : String)
    (params : List (String × JsVal)) : HttpRequest :=
  { method := .get, baseURL := cfg.baseURL, url := url, headers := cfg.headers,
    timeout := cfg.timeout, params := params, body := none }

/-- `apiClient.post(url, body)`: a POST request carrying the instance
configuration. -/
def clientPost (cfg : ApiClientConfig) (url : String) (body : JsVal) : HttpRequest :=
  { method := .post, baseURL := cfg.baseURL, url := url, headers := cfg.headers,
    timeout := cfg.timeout, params := [], body := some body }

/-- The request issued by `fetchPosts(limit)`: GET /posts with params
\x7b _limit: limit \x7d. -/
def postsListRequest (limit : JsVal) : HttpRequest :=
  clientGet apiClient "/posts" [("_limit", limit)]

/-- The request issued by `fetchPostById(id)`: GET /posts/$\x7bid\x7d. -/
def postByIdRequest (id : JsVal) : HttpRequest :=
  clientGet apiClient ("/posts/" ++ jsToString id) []

/-- The request issued by `fetchUser(id)`: GET /users/$\x7bid\x7d. -/
def userRequest (id : JsVal) : HttpRequest :=
  clientGet apiClient ("/users/" ++ jsToString id) []

/-- The request issued by `createPost(postData)`: POST /posts with
`postData` as the body. -/
def createPostRequest (data : JsVal) : HttpRequest :=
  clientPost apiClient "/posts" data

/-- How a caught error is rendered when passed whole to `console.error`. -/
def errorToString (e : AxiosError) : String := e.message

/-- The three-way error classification from the `fetchPosts` catch block
(lines 22-31): `if (error.response)` log Server Error with status and data,
`else if (error.request)` log Network Error with the request, `else` log
the error message. -/
def classifyLog (e : AxiosError) : LogEntry :=
  match e.response with
  | some r => .error ["Server Error:", toString r.status, jsToString r.data]
  | none =>
    match e.request with
    | some rq => .error ["Network Error:", rq]
    | none => .error ["Error:", e.message]

/-- `fetchPosts(limit)` (lines 14-34): GET /posts?_limit=limit; on success
return `response.data`; on failure run the three-way classification log and
re-throw the error. -/
def fetchPosts (t : Transport) (limit : JsVal) : OpResult :=
  match t (postsListRequest limit) with
  | .ok resp =>
      { requests := [postsListRequest limit], logs := [], result := .ok resp.data }
  | .err e =>
      { requests := [postsListRequest limit], logs := [classifyLog e],
        result := .error e }

/-- `fetchPosts()` with the limit argument omitted: the default parameter
`limit = 10` applies. -/
def fetchPostsDefault (t : Transport) : OpResult :=
  fetchPosts t (.num 10)

/-- `fetchPostById(id)` (lines 37-45): GET /posts/$\x7bid\x7d; on success
return `response.data`; on failure log one generic message naming the id
and the error, then re-throw. -/
def fetchPostById (t : Transport) (id : JsVal) : OpResult :=
  match t (postByIdRequest id) with
  | .ok resp =>
      { requests := [postByIdRequest id], logs := [], result := .ok resp.data }
  | .err e =>
      { requests := [postByIdRequest id],
        logs := [.error ["Error fetching post with ID " ++ jsToString id ++ ":",
                         errorToString e]],
        result := .error e }

/-- `fetchUser(id)` (lines 48-59): GET /users/$\x7bid\x7d; on success return
`response.data`; on failure log one generic message and re-throw; the
`finally` block logs the fixed completion notice on every path. -/
def fetchUser (t : Transport) (id : JsVal) : OpResult :=
  match t (userRequest id) with
  | .ok resp =>
      { requests := [userRequest id],
        logs := [.log "User fetch operation completed"],
        result := .ok resp.data }
  | .err e =>
      { requests := [userRequest id],
        logs := [.error ["Error fetching user with ID " ++ jsToString id ++ ":",
                         errorToString e],
                 .log "User fetch operation completed"],
        result := .error e }

/-- `createPost(postData)` (lines 62-70): POST /posts with the payload as
body; on success return `response.data`; on failure log one generic message
and re-throw. -/
def createPost (t : Transport) (data : JsVal) : OpResult :=
  match t (createPostRequest data) with
  | .ok resp =>
      { requests := [createPostRequest data], logs := [], result := .ok resp.data }
  | .err e =>
      { requests := [createPostRequest data],
        logs := [.error ["Error creating post:", errorToString e]],
        result := .error e }

/-- Every value of `classifyLog` is a `console.error` entry. -/
theorem classifyLog_isError (e : AxiosError) :
    ∃ parts, classifyLog e = LogEntry.error parts := by
  unfold classifyLog
  cases e.response with
  | some r => exact ⟨_, rfl⟩
  | none =>
    cases e.request with
    | some rq => exact ⟨_, rfl⟩
    | none => exact ⟨_, rfl⟩

/-- Claim C1 counterexample: the three-way classification is NOT applied by
`fetchPostById`.  With a transport failure whose `response` field is present
(status 404), the claim requires the remote-responded log entry carrying the
status code and body, but `fetchPostById` writes its single generic message
instead. -/
theorem classification_not_applied_in_fetchPostById :
    ¬ ((fetchPostById
          (fun _ => TransportOutcome.err
            { response := some { status := 404, data := JsVal.str "not found" }
              request := some "GET /posts/1"
              message := "Request failed with status code 404" })
          (JsVal.num 1)).logs =
        [classifyLog
          { response := some { status := 404, data := JsVal.str "not found" }
            request := some "GET /posts/1"
            message := "Request failed with status code 404" }]) := by
  decide

/-- Claim C1 (amended): on a transport failure, only `fetchPosts` applies the
three-way classification (remote-responded, else no-response, else
request-construction); `fetchPostById` and `fetchUser` instead write a single
generic diagnostic naming the id and the error, with no three-way split —
like `createPost`. -/
theorem classification_only_in_fetchPosts (t : Transport) (limit id : JsVal)
    (e : AxiosError)
    (hp : t (postsListRequest limit) = .err e)
    (hb : t (postByIdRequest id) = .err e)
    (hu : t (userRequest id) = .err e) :
    (fetchPosts t limit).logs = [classifyLog e] ∧
    (fetchPostById t id).logs =
      [LogEntry.error ["Error fetching post with ID " ++ jsToString id ++ ":",
                       errorToString e]] ∧
    (fetchUser t id).logs =
      [LogEntry.error ["Error fetching user with ID " ++ jsToString id ++ ":",
                       errorToString e],
       LogEntry.log "User fetch operation completed"] := by
  refine ⟨?_, ?_, ?_⟩
  · unfold fetchPosts
    rw [hp]
  · unfold fetchPostById
    rw [hb]
  · unfold fetchUser
    rw [hu]

/-- Witness for the amended C1 theorem at a concrete failing transport. -/
theorem classification_only_in_fetchPosts_witness :
    (fetchPosts (fun _ => TransportOutcome.err
        { response := none, request := some "GET", message := "timeout" })
      (JsVal.num 5)).logs =
      [classifyLog { response := none, request := some "GET", message := "timeout" }] ∧
    (fetchPostById (fun _ => TransportOutcome.err
        { response := none, request := some "GET", message := "timeout" })
      (JsVal.num 7)).logs =
      [LogEntry.error ["Error fetching post with ID " ++ jsToString (JsVal.num 7) ++ ":",
                       errorToString { response := none, request := some "GET", message := "timeout" }]] ∧
    (fetchUser (fun _ => TransportOutcome.err
        { response := none, request := some "GET", message := "timeout" })
      (JsVal.num 7)).logs =
      [LogEntry.error ["Error fetching user with ID " ++ jsToString (JsVal.num 7) ++ ":",
                       errorToString { response := none, request := some "GET", message := "timeout" }],
       LogEntry.log "User fetch operation completed"] :=
  classification_only_in_fetchPosts
    (fun _ => TransportOutcome.err
      { response := none, request := some "GET", message := "timeout" })
    (JsVal.num 5) (JsVal.num 7)
    { response := none, request := some "GET", message := "timeout" }
    rfl rfl rfl

/-- Claim C3: for every N > 0, `fetchPosts(N)` issues exactly one GET request
to /posts with the `_limit` query parameter set to exactly N; the omitted
argument defaults to 10; on success it returns the response payload. -/
theorem fetchPosts_request_shape_and_default (t : Transport) (N : Int)
    (resp : AxiosResponse)
    (hN : 0 < N)
    (hok : t (postsListRequest (.num N)) = .ok resp) :
    (fetchPosts t (.num N)).requests = [postsListRequest (.num N)] ∧
    (postsListRequest (.num N)).method = HttpMethod.get ∧
    (postsListRequest (.num N)).url = "/posts" ∧
    (postsListRequest (.num N)).params = [("_limit", JsVal.num N)] ∧
    (fetchPosts t (.num N)).result = Except.ok resp.data ∧
    fetchPostsDefault t = fetchPosts t (.num 10) := by
  refine ⟨?_, rfl, rfl, rfl, ?_, rfl⟩
  · unfold fetchPosts
    rw [hok]
  · unfold fetchPosts
    rw [hok]

/-- Witness for C3 at N = 3 with a concrete successful transport. -/
theorem fetchPosts_request_shape_and_default_witness :
    (0 : Int) < 3 ∧
    ((fetchPosts (fun _ => TransportOutcome.ok { status := 200, data := JsVal.arr [] })
        (.num 3)).requests = [postsListRequest (.num 3)] ∧
     (postsListRequest (.num 3)).method = HttpMethod.get ∧
     (postsListRequest (.num 3)).url = "/posts" ∧
     (postsListRequest (.num 3)).params = [("_limit", JsVal.num 3)] ∧
     (fetchPosts (fun _ => TransportOutcome.ok { status := 200, data := JsVal.arr [] })
        (.num 3)).result =
       Except.ok (AxiosResponse.data { status := 200, data := JsVal.arr [] }) ∧
     fetchPostsDefault (fun _ => TransportOutcome.ok { status := 200, data := JsVal.arr [] }) =
       fetchPosts (fun _ => TransportOutcome.ok { status := 200, data := JsVal.arr [] })
         (.num 10)) :=
  ⟨by decide,
   fetchPosts_request_shape_and_default
     (fun _ => TransportOutcome.ok { status := 200, data := JsVal.arr [] })
     3 { status := 200, data := JsVal.arr [] } (by decide) rfl⟩

/-- Claim C2: for every operation and every transport failure, the operation
writes a diagnostic `console.error` entry, re-raises the original failure
value unchanged, and issues no second request (no retry, no local
recovery). -/
theorem all_ops_log_and_rethrow_original_error (t : Transport)
    (limit id data : JsVal) (e1 e2 e3 e4 : AxiosError)
    (h1 : t (postsListRequest limit) = .err e1)
    (h2 : t (postByIdRequest id) = .err e2)
    (h3 : t (userRequest id) = .err e3)
    (h4 : t (createPostRequest data) = .err e4) :
    ((fetchPosts t limit).result = Except.error e1 ∧
     (∃ parts, LogEntry.error parts ∈ (fetchPosts t limit).logs) ∧
     (fetchPosts t limit).requests = [postsListRequest limit]) ∧
    ((fetchPostById t id).result = Except.error e2 ∧
     (∃ parts, LogEntry.error parts ∈ (fetchPostById t id).logs) ∧
     (fetchPostById t id).requests = [postByIdRequest id]) ∧
    ((fetchUser t id).result = Except.error e3 ∧
     (∃ parts, LogEntry.error parts ∈ (fetchUser t id).logs) ∧
     (fetchUser t id).requests = [userRequest id]) ∧
    ((createPost t data).result = Except.error e4 ∧
     (∃ parts, LogEntry.error parts ∈ (createPost t data).logs) ∧
     (createPost t data).requests = [createPostRequest data]) := by
  refine ⟨⟨?_, ?_, ?_⟩, ⟨?_, ?_, ?_⟩, ⟨?_, ?_, ?_⟩, ⟨?_, ?_, ?_⟩⟩
  · unfold fetchPosts; rw [h1]
  · unfold fetchPosts
    rw [h1]
    obtain ⟨parts, hparts⟩ := classifyLog_isError e1
    exact ⟨parts, by simp [hparts]⟩
  · unfold fetchPosts; rw [h1]
  · unfold fetchPostById; rw [h2]
  · unfold fetchPostById
    rw [h2]
    exact ⟨["Error fetching post with ID " ++ jsToString id ++ ":", errorToString e2],
           by simp⟩
  · unfold fetchPostById; rw [h2]
  · unfold fetchUser; rw [h3]
  · unfold fetchUser
    rw [h3]
    exact ⟨["Error fetching user with ID " ++ jsToString id ++ ":", errorToString e3],
           by simp⟩
  · unfold fetchUser; rw [h3]
  · unfold createPost; rw [h4]
  · unfold createPost
    rw [h4]
    exact ⟨["Error creating post:", errorToString e4], by simp⟩
  · unfold createPost; rw [h4]

/-- Witness for C2 with all four operations failing on one concrete
transport error. -/
theorem all_ops_log_and_rethrow_original_error_witness :
    ((fetchPosts (fun _ => TransportOutcome.err
        { response := none, request := none, message := "bad" }) (JsVal.num 2)).result =
       Except.error { response := none, request := none, message := "bad" } ∧
     (∃ parts, LogEntry.error parts ∈ (fetchPosts (fun _ => TransportOutcome.err
        { response := none, request := none, message := "bad" }) (JsVal.num 2)).logs) ∧
     (fetchPosts (fun _ => TransportOutcome.err
        { response := none, request := none, message := "bad" }) (JsVal.num 2)).requests =
       [postsListRequest (JsVal.num 2)]) ∧
    ((fetchPostById (fun _ => TransportOutcome.err
        { response := none, request := none, message := "bad" }) (JsVal.num 1)).result =
       Except.error { response := none, request := none, message := "bad" } ∧
     (∃ parts, LogEntry.error parts ∈ (fetchPostById (fun _ => TransportOutcome.err
        { response := none, request := none, message := "bad" }) (JsVal.num 1)).logs) ∧
     (fetchPostById (fun _ => TransportOutcome.err
        { response := none, request := none, message := "bad" }) (JsVal.num 1)).requests =
       [postByIdRequest (JsVal.num 1)]) ∧
    ((fetchUser (fun _ => TransportOutcome.err
        { response := none, request := none, message := "bad" }) (JsVal.num 1)).result =
       Except.error { response := none, request := none, message := "bad" } ∧
     (∃ parts, LogEntry.error parts ∈ (fetchUser (fun _ => TransportOutcome.err
        { response := none, request := none, message := "bad" }) (JsVal.num 1)).logs) ∧
     (fetchUser (fun _ => TransportOutcome.err
        { response := none, request := none, message := "bad" }) (JsVal.num 1)).requests =
       [userRequest (JsVal.num 1)]) ∧
    ((createPost (fun _ => TransportOutcome.err
        { response := none, request := none, message := "bad" }) JsVal.null).result =
       Except.error { response := none, request := none, message := "bad" } ∧
     (∃ parts, LogEntry.error parts ∈ (createPost (fun _ => TransportOutcome.err
        { response := none, request := none, message := "bad" }) JsVal.null).logs) ∧
     (createPost (fun _ => TransportOutcome.err
        { response := none, request := none, message := "bad" }) JsVal.null).requests =
       [createPostRequest JsVal.null]) :=
  all_ops_log_and_rethrow_original_error
    (fun _ => TransportOutcome.err { response := none, request := none, message := "bad" })
    (JsVal.num 2) (JsVal.num 1) JsVal.null
    { response := none, request := none, message := "bad" }
    { response := none, request := none, message := "bad" }
    { response := none, request := none, message := "bad" }
    { response := none, request := none, message := "bad" }
    rfl rfl rfl rfl

/-- Claim C4: for every id and every outcome, `fetchUser(id)` writes its
fixed completion notice exactly once per call, as the last log entry (after
the attempt resolves), whether it returns a payload or re-signals a
failure. -/
theorem fetchUser_completion_notice_exactly_once (t : Transport) (id : JsVal) :
    ∃ pre, (fetchUser t id).logs = pre ++ [LogEntry.log "User fetch operation completed"] ∧
      LogEntry.log "User fetch operation completed" ∉ pre := by
  unfold fetchUser
  cases t (userRequest id) with
  | ok resp => exact ⟨[], rfl, by simp⟩
  | err e =>
      refine ⟨[LogEntry.error ["Error fetching user with ID " ++ jsToString id ++ ":",
                               errorToString e]], rfl, ?_⟩
      simp

/-- Claim C5: `createPost(data)` issues exactly one POST request to /posts
with `data` verbatim as the body, and on success returns the response body
unmodified. -/
theorem createPost_sends_payload_verbatim (t : Transport) (data : JsVal)
    (resp : AxiosResponse)
    (hok : t (createPostRequest data) = .ok resp) :
    (createPost t data).requests = [createPostRequest data] ∧
    (createPostRequest data).method = HttpMethod.post ∧
    (createPostRequest data).url = "/posts" ∧
    (createPostRequest data).body = some data ∧
    (createPost t data).result = Except.ok resp.data := by
  refine ⟨?_, rfl, rfl, rfl, ?_⟩
  · unfold createPost; rw [hok]
  · unfold createPost; rw [hok]

/-- Witness for C5 at a concrete object payload and successful transport. -/
theorem createPost_sends_payload_verbatim_witness :
    (createPost (fun _ => TransportOutcome.ok
        { status := 201, data := JsVal.obj [("id", JsVal.num 101)] })
      (JsVal.obj [("title", JsVal.str "hi")])).requests =
      [createPostRequest (JsVal.obj [("title", JsVal.str "hi")])] ∧
    (createPostRequest (JsVal.obj [("title", JsVal.str "hi")])).method = HttpMethod.post ∧
    (createPostRequest (JsVal.obj [("title", JsVal.str "hi")])).url = "/posts" ∧
    (createPostRequest (JsVal.obj [("title", JsVal.str "hi")])).body =
      some (JsVal.obj [("title", JsVal.str "hi")]) ∧
    (createPost (fun _ => TransportOutcome.ok
        { status := 201, data := JsVal.obj [("id", JsVal.num 101)] })
      (JsVal.obj [("title", JsVal.str "hi")])).result =
      Except.ok (AxiosResponse.data { status := 201, data := JsVal.obj [("id", JsVal.num 101)] }) :=
  createPost_sends_payload_verbatim
    (fun _ => TransportOutcome.ok { status := 201, data := JsVal.obj [("id", JsVal.num 101)] })
    (JsVal.obj [("title", JsVal.str "hi")])
    { status := 201, data := JsVal.obj [("id", JsVal.num 101)] }
    rfl

/-- Claim C6: `fetchPostById(id)` issues a GET request whose path is
/posts/$\x7bid\x7d and `fetchUser(id)` a GET request whose path is
/users/$\x7bid\x7d — each path contains exactly the given id — and on
success each returns the single resource payload from the response. -/
theorem byId_requests_target_id_path (t : Transport) (id : JsVal)
    (rp ru : AxiosResponse)
    (hp : t (postByIdRequest id) = .ok rp)
    (hu : t (userRequest id) = .ok ru) :
    (fetchPostById t id).requests = [postByIdRequest id] ∧
    (postByIdRequest id).method = HttpMethod.get ∧
    (postByIdRequest id).url = "/posts/" ++ jsToString id ∧
    (fetchPostById t id).result = Except.ok rp.data ∧
    (fetchUser t id).requests = [userRequest id] ∧
    (userRequest id).method = HttpMethod.get ∧
    (userRequest id).url = "/users/" ++ jsToString id ∧
    (fetchUser t id).result = Except.ok ru.data := by
  refine ⟨?_, rfl, rfl, ?_, ?_, rfl, rfl, ?_⟩
  · unfold fetchPostById; rw [hp]
  · unfold fetchPostById; rw [hp]
  · unfold fetchUser; rw [hu]
  · unfold fetchUser; rw [hu]

/-- Witness for C6 at id = 42 with a concrete successful transport. -/
theorem byId_requests_target_id_path_witness :
    (fetchPostById (fun _ => TransportOutcome.ok { status := 200, data := JsVal.null })
        (JsVal.num 42)).requests = [postByIdRequest (JsVal.num 42)] ∧
    (postByIdRequest (JsVal.num 42)).method = HttpMethod.get ∧
    (postByIdRequest (JsVal.num 42)).url = "/posts/" ++ jsToString (JsVal.num 42) ∧
    (fetchPostById (fun _ => TransportOutcome.ok { status := 200, data := JsVal.null })
        (JsVal.num 42)).result =
      Except.ok (AxiosResponse.data { status := 200, data := JsVal.null }) ∧
    (fetchUser (fun _ => TransportOutcome.ok { status := 200, data := JsVal.null })
        (JsVal.num 42)).requests = [userRequest (JsVal.num 42)] ∧
    (userRequest (JsVal.num 42)).method = HttpMethod.get ∧
    (userRequest (JsVal.num 42)).url = "/users/" ++ jsToString (JsVal.num 42) ∧
    (fetchUser (fun _ => TransportOutcome.ok { status := 200, data := JsVal.null })
        (JsVal.num 42)).result =
      Except.ok (AxiosResponse.data { status := 200, data := JsVal.null }) :=
  byId_requests_target_id_path
    (fun _ => TransportOutcome.ok { status := 200, data := JsVal.null })
    (JsVal.num 42)
    { status := 200, data := JsVal.null } { status := 200, data := JsVal.null }
    rfl rfl

/-- An `Except` result is exactly one of a payload or an error. -/
theorem except_ok_xor_error (r : Except AxiosError JsVal) :
    Xor' (∃ d, r = Except.ok d) (∃ e, r = Except.error e) := by
  cases r with
  | ok d =>
      exact Or.inl ⟨⟨d, rfl⟩, by rintro ⟨e, h⟩; exact Except.noConfusion h⟩
  | error e =>
      exact Or.inr ⟨⟨e, rfl⟩, by rintro ⟨d, h⟩; exact Except.noConfusion h⟩

/-- Claim C7: the client configuration is the fixed record (base endpoint,
Content-Type/Accept json headers, 10000 ms timeout) and every request any
operation issues carries exactly these configuration fields: the
configuration is read-only and the same at every call. -/
theorem apiClient_config_fixed_and_unmodified :
    apiClient.baseURL = "https://jsonplaceholder.typicode.com" ∧
    apiClient.headers = [("Content-Type", "application/json"),
                         ("Accept", "application/json")] ∧
    apiClient.timeout = 10000 ∧
    (∀ limit : JsVal, (postsListRequest limit).baseURL = apiClient.baseURL ∧
      (postsListRequest limit).headers = apiClient.headers ∧
      (postsListRequest limit).timeout = apiClient.timeout) ∧
    (∀ id : JsVal, (postByIdRequest id).baseURL = apiClient.baseURL ∧
      (postByIdRequest id).headers = apiClient.headers ∧
      (postByIdRequest id).timeout = apiClient.timeout ∧
      (userRequest id).baseURL = apiClient.baseURL ∧
      (userRequest id).headers = apiClient.headers ∧
      (userRequest id).timeout = apiClient.timeout) ∧
    (∀ data : JsVal, (createPostRequest data).baseURL = apiClient.baseURL ∧
      (createPostRequest data).headers = apiClient.headers ∧
      (createPostRequest data).timeout = apiClient.timeout) ∧
    (∀ (t : Transport) (limit : JsVal),
      (fetchPosts t limit).requests = [postsListRequest limit]) ∧
    (∀ (t : Transport) (id : JsVal),
      (fetchPostById t id).requests = [postByIdRequest id] ∧
      (fetchUser t id).requests = [userRequest id]) ∧
    (∀ (t : Transport) (data : JsVal),
      (createPost t data).requests = [createPostRequest data]) := by
  refine ⟨rfl, rfl, rfl,
          fun limit => ⟨rfl, rfl, rfl⟩,
          fun id => ⟨rfl, rfl, rfl, rfl, rfl, rfl⟩,
          fun data => ⟨rfl, rfl, rfl⟩, ?_, ?_, ?_⟩
  · intro t limit
    unfold fetchPosts
    cases t (postsListRequest limit) <;> rfl
  · intro t id
    constructor
    · unfold fetchPostById
      cases t (postByIdRequest id) <;> rfl
    · unfold fetchUser
      cases t (userRequest id) <;> rfl
  · intro t data
    unfold createPost
    cases t (createPostRequest data) <;> rfl

/-- Claim C8: every operation, on every input and transport, resolves to
exactly one of the two outcomes: a returned payload or a re-signaled
failure — never both, never neither. -/
theorem ops_resolve_to_exactly_one_outcome (t : Transport)
    (limit id data : JsVal) :
    Xor' (∃ d, (fetchPosts t limit).result = Except.ok d)
         (∃ e, (fetchPosts t limit).result = Except.error e) ∧
    Xor' (∃ d, (fetchPostById t id).result = Except.ok d)
         (∃ e, (fetchPostById t id).result = Except.error e) ∧
    Xor' (∃ d, (fetchUser t id).result = Except.ok d)
         (∃ e, (fetchUser t id).result = Except.error e) ∧
    Xor' (∃ d, (createPost t data).result = Except.ok d)
         (∃ e, (createPost t data).result = Except.error e) :=
  ⟨except_ok_xor_error _, except_ok_xor_error _, except_ok_xor_error _,
   except_ok_xor_error _⟩

/-- Claim C9: no input validation before dispatch.  For every limit value
whatsoever (zero, negative, non-integer alike) `fetchPosts` still issues
the GET with `_limit` set to that exact value; for every id value
whatsoever `fetchPostById` and `fetchUser` still interpolate it into the
path; and any error the call re-signals came from the transport, so the
client itself never raises a local request-construction error for
out-of-range inputs. -/
theorem no_input_validation_before_dispatch (t : Transport)
    (limit id : JsVal) (e : AxiosError) :
    (fetchPosts t limit).requests = [postsListRequest limit] ∧
    (postsListRequest limit).params = [("_limit", limit)] ∧
    (fetchPostById t id).requests = [postByIdRequest id] ∧
    (postByIdRequest id).url = "/posts/" ++ jsToString id ∧
    (fetchUser t id).requests = [userRequest id] ∧
    (userRequest id).url = "/users/" ++ jsToString id ∧
    ((fetchPosts t limit).result = Except.error e →
      t (postsListRequest limit) = TransportOutcome.err e) ∧
    ((fetchPostById t id).result = Except.error e →
      t (postByIdRequest id) = TransportOutcome.err e) ∧
    ((fetchUser t id).result = Except.error e →
      t (userRequest id) = TransportOutcome.err e) := by
  refine ⟨?_, rfl, ?_, rfl, ?_, rfl, ?_, ?_, ?_⟩
  · unfold fetchPosts
    cases t (postsListRequest limit) <;> rfl
  · unfold fetchPostById
    cases t (postByIdRequest id) <;> rfl
  · unfold fetchUser
    cases t (userRequest id) <;> rfl
  · unfold fetchPosts
    cases h : t (postsListRequest limit) with
    | ok resp => intro hr; exact Except.noConfusion hr
    | err e2 => intro hr; rw [Except.error.injEq] at hr; rw [hr]
  · unfold fetchPostById
    cases h : t (postByIdRequest id) with
    | ok resp => intro hr; exact Except.noConfusion hr
    | err e2 => intro hr; rw [Except.error.injEq] at hr; rw [hr]
  · unfold fetchUser
    cases h : t (userRequest id) with
    | ok resp => intro hr; exact Except.noConfusion hr
    | err e2 => intro hr; rw [Except.error.injEq] at hr; rw [hr]

/-- Witness for C9 at a zero limit and a non-integer id on a failing
transport. -/
theorem no_input_validation_before_dispatch_witness :
    (fetchPosts (fun _ => TransportOutcome.err
        { response := none, request := none, message := "oops" }) (JsVal.num 0)).requests =
      [postsListRequest (JsVal.num 0)] ∧
    (postsListRequest (JsVal.num 0)).params = [("_limit", JsVal.num 0)] ∧
    (fetchPostById (fun _ => TransportOutcome.err
        { response := none, request := none, message := "oops" }) (JsVal.str "abc")).requests =
      [postByIdRequest (JsVal.str "abc")] ∧
    (postByIdRequest (JsVal.str "abc")).url = "/posts/" ++ jsToString (JsVal.str "abc") ∧
    (fetchUser (fun _ => TransportOutcome.err
        { response := none, request := none, message := "oops" }) (JsVal.str "abc")).requests =
      [userRequest (JsVal.str "abc")] ∧
    (userRequest (JsVal.str "abc")).url = "/users/" ++ jsToString (JsVal.str "abc") ∧
    ((fetchPosts (fun _ => TransportOutcome.err
        { response := none, request := none, message := "oops" }) (JsVal.num 0)).result =
        Except.error { response := none, request := none, message := "oops" } →
      (fun (_ : HttpRequest) => TransportOutcome.err
        { response := none, request := none, message := "oops" }) (postsListRequest (JsVal.num 0)) =
        TransportOutcome.err { response := none, request := none, message := "oops" }) ∧
    ((fetchPostById (fun _ => TransportOutcome.err
        { response := none, request := none, message := "oops" }) (JsVal.str "abc")).result =
        Except.error { response := none, request := none, message := "oops" } →
      (fun (_ : HttpRequest) => TransportOutcome.err
        { response := none, request := none, message := "oops" }) (postByIdRequest (JsVal.str "abc")) =
        TransportOutcome.err { response := none, request := none, message := "oops" }) ∧
    ((fetchUser (fun _ => TransportOutcome.err
        { response := none, request := none, message := "oops" }) (JsVal.str "abc")).result =
        Except.error { response := none, request := none, message := "oops" } →
      (fun (_ : HttpRequest) => TransportOutcome.err
        { response := none, request := none, message := "oops" }) (userRequest (JsVal.str "abc")) =
        TransportOutcome.err { response := none, request := none, message := "oops" }) :=
  no_input_validation_before_dispatch
    (fun _ => TransportOutcome.err { response := none, request := none, message := "oops" })
    (JsVal.num 0) (JsVal.str "abc")
    { response := none, request := none, message := "oops" }

/-- Claim C10: no interference between calls.  Each operation's entire
observable behaviour (requests, logs, result) depends only on its own
inputs and the transport's answer to its own request: two transports that
agree on that one request yield identical call behaviour, so concurrent
calls sharing the read-only configuration cannot affect one another's
returned data. -/
theorem ops_depend_only_on_own_response (t1 t2 : Transport)
    (limit id data : JsVal)
    (hp : t1 (postsListRequest limit) = t2 (postsListRequest limit))
    (hb : t1 (postByIdRequest id) = t2 (postByIdRequest id))
    (hu : t1 (userRequest id) = t2 (userRequest id))
    (hc : t1 (createPostRequest data) = t2 (createPostRequest data)) :
    fetchPosts t1 limit = fetchPosts t2 limit ∧
    fetchPostById t1 id = fetchPostById t2 id ∧
    fetchUser t1 id = fetchUser t2 id ∧
    createPost t1 data = createPost t2 data := by
  refine ⟨?_, ?_, ?_, ?_⟩
  · unfold fetchPosts; rw [hp]
  · unfold fetchPostById; rw [hb]
  · unfold fetchUser; rw [hu]
  · unfold createPost; rw [hc]

/-- Witness for C10: two concretely different transports agreeing on the
requests at hand give identical call behaviour. -/
theorem ops_depend_only_on_own_response_witness :
    fetchPosts (fun _ => TransportOutcome.ok { status := 200, data := JsVal.null })
        (JsVal.num 4) =
      fetchPosts (fun _ => TransportOutcome.ok { status := 200, data := JsVal.null })
        (JsVal.num 4) ∧
    fetchPostById (fun _ => TransportOutcome.ok { status := 200, data := JsVal.null })
        (JsVal.num 9) =
      fetchPostById (fun _ => TransportOutcome.ok { status := 200, data := JsVal.null })
        (JsVal.num 9) ∧
    fetchUser (fun _ => TransportOutcome.ok { status := 200, data := JsVal.null })
        (JsVal.num 9) =
      fetchUser (fun _ => TransportOutcome.ok { status := 200, data := JsVal.null })
        (JsVal.num 9) ∧
    createPost (fun _ => TransportOutcome.ok { status := 200, data := JsVal.null })
        JsVal.null =
      createPost (fun _ => TransportOutcome.ok { status := 200, data := JsVal.null })
        JsVal.null :=
  ops_depend_only_on_own_response
    (fun _ => TransportOutcome.ok { status := 200, data := JsVal.null })
    (fun _ => TransportOutcome.ok { status := 200, data := JsVal.null })
    (JsVal.num 4) (JsVal.num 9) JsVal.null
    rfl rfl rfl rfl

end Api
